import Mathlib

/-!
Verification of the Ontology Trezor adapter (`ontology-ts-sdk-trezor`).

The development shallowly embeds the two core modules:
* `trezorProxy` — the device session gateway and the transaction translator
  (`convertToTrezorTransaction`, `convertPayload`, `convertAttribute`,
  `BIP44`, `isTransaction`, `getPublicKey`, `computesSignature`,
  `getDevice`, `getDeviceWithTimout`, `isTrezorSupported`);
* `trezorKey` — the hardware key adapter (`sign`, `signAsync`,
  `isSchemaSupported`, `encrypt`, `decrypt`).

External collaborators (the `long` library, the SDK's `StringReader` and
address/amount values, the `promise-timeout` helper) are embedded at the level
of the behaviour the adapter consumes from them, as documented on each
definition.  Device I/O is made explicit: a function that issues a typed RPC
call returns the call record it sends, and takes the device's reply as an
argument.
-/

namespace Trezor

/-- An address value from the SDK.  The adapter only ever observes an address
through its `toBase58()` rendering, so the embedding carries exactly that
rendering. -/
structure Address where
  b58 : String
deriving DecidableEq, Repr

/-- `toBase58()` of the SDK address: yields the base58 rendering. -/
def Address.toBase58 (a : Address) : String := a.b58

/-- A gas-price / gas-limit style amount from the SDK: a value object whose
`value` field holds a decimal string (`tx.gasPrice.value`). -/
structure Amount where
  value : String
deriving DecidableEq, Repr

/-- A transaction attribute of the source transaction: a usage tag and a data
string, read by `convertAttribute`. -/
structure TxAttribute where
  usage : Nat
  data : String
deriving DecidableEq, Repr

/-- The payload object of a source transaction, as `convertPayload` reads it.
Fields that a JavaScript payload object may lack (or hold `null` in) are
`Option`s; `none` stands for an absent / nullish field, which is exactly what
the source's `!= null` tests observe. -/
structure Payload where
  code : String
  needStorage : Option Bool
  name : Option String
  version : Option String
  author : Option String
  email : Option String
  description : Option String
deriving DecidableEq, Repr

/-- The payload record of the firmware wire schema, as constructed by the two
object literals in `convertPayload`: a numeric `type` tag, the `code`, and the
deploy-only metadata fields (absent — `none` — on the invoke variant). -/
structure OntologyPayload where
  type : Nat
  code : String
  needStorage : Option Bool := none
  name : Option String := none
  version : Option String := none
  author : Option String := none
  email : Option String := none
  description : Option String := none
deriving DecidableEq, Repr

/-- The attribute record of the firmware wire schema, as constructed by
`convertAttribute`. -/
structure OntologyTxAttribute where
  usage : Nat
  data : String
deriving DecidableEq, Repr

/-- The transfer sub-record of the firmware wire schema, as constructed inside
`convertToTrezorTransaction` for `Transfer` transactions. -/
structure OntologyTransferInfo where
  amount : Nat
  asset : Nat
  fromAddress : String
  toAddress : String
deriving DecidableEq, Repr

/-- The transaction record of the firmware wire schema, as constructed by
`convertToTrezorTransaction`.  `transferInfo` is optional: it is only assigned
for transfer transactions. -/
structure OntologyTransaction where
  version : Nat
  type : Nat
  nonce : Nat
  gasPrice : Nat
  gasLimit : Nat
  payer : String
  payload : OntologyPayload
  txAttributes : List OntologyTxAttribute
  transferInfo : Option OntologyTransferInfo := none
deriving DecidableEq, Repr

/-- The fields of a source `Transaction` that `convertToTrezorTransaction`
reads.  The nonce is a 4-byte little-endian string in the source object; it is
embedded as the list of its byte values. -/
structure TxBase where
  version : Nat
  type : Nat
  nonce : List Nat
  gasPrice : Amount
  gasLimit : Amount
  payer : Address
  payload : Payload
  txAttributes : List TxAttribute
deriving DecidableEq, Repr

/-- The extra fields a `Transfer` (subclass of `Transaction`) carries and the
translator reads: amount, token symbol, and the two endpoint addresses.
The amount is embedded as its numeric value (the SDK hands `Long.fromValue`
a decimal amount). -/
structure TransferData where
  amount : Nat
  tokenType : String
  fromAddr : Address
  toAddr : Address
deriving DecidableEq, Repr

/-- A source transaction: either a plain `Transaction`, or a `Transfer`
(`tx instanceof Transfer`), which carries the transfer fields in addition to
the base fields. -/
inductive SourceTx where
  | base (t : TxBase)
  | transfer (t : TxBase) (tr : TransferData)
deriving DecidableEq, Repr

/-- The base-transaction fields of a source transaction (a `Transfer` is also
a `Transaction`). -/
def SourceTx.fields : SourceTx → TxBase
  | .base t => t
  | .transfer t _ => t

/-- The numeric value of a string of decimal digits (most significant first). -/
def digitsVal (cs : List Char) : Nat :=
  cs.foldl (fun acc c => acc * 10 + (c.toNat - 48)) 0

/-- The mathematical value denoted by a decimal string.  This is the reference
meaning of "the decimal-string amount", used to compare the embedded 64-bit
parser against exact parsing. -/
def decValue (s : String) : Nat := digitsVal s.data

/-- `Long.fromString` of the `long` collaborator, at the level the spec
describes it: the decimal string is parsed into a 64-bit integer, so the
carried value is the decimal value reduced into 64 bits. -/
def Long_fromString (s : String) : Nat := decValue s % 2 ^ 64

/-- `Long.fromValue` of the `long` collaborator applied to the transfer
amount: the numeric value is carried as a 64-bit integer. -/
def Long_fromValue (n : Nat) : Nat := n % 2 ^ 64

/-- `new utils.StringReader(nonce).readUint32()` of the SDK collaborator:
reads the first 4 bytes of the little-endian string and decodes them into an
unsigned integer (least-significant byte first). -/
def StringReader_readUint32 (bytes : List Nat) : Nat :=
  ((bytes.take 4).reverse).foldl (fun acc b => acc * 256 + b) 0

/-- `convertPayload` of `trezorProxy`: a payload with a non-null `name` field
is translated to the deploy-code record (type tag 2, all metadata copied);
any other payload is translated to the invoke-code record (type tag 1, only
the code). -/
def convertPayload (payload : Payload) : OntologyPayload :=
  if payload.name.isSome then
    { type := 2
      code := payload.code
      needStorage := payload.needStorage
      name := payload.name
      version := payload.version
      author := payload.author
      email := payload.email
      description := payload.description }
  else
    { type := 1
      code := payload.code }

/-- `convertAttribute` of `trezorProxy`. -/
def convertAttribute (att : TxAttribute) : OntologyTxAttribute :=
  { usage := att.usage
    data := att.data }

/-- `convertToTrezorTransaction` of `trezorProxy`: builds the wire-schema
record from the base fields, then, when the source is a `Transfer`, assigns
the transfer sub-record. -/
def convertToTrezorTransaction (tx : SourceTx) : OntologyTransaction :=
  let t := tx.fields
  let transaction : OntologyTransaction :=
    { version := t.version
      type := t.type
      nonce := StringReader_readUint32 t.nonce
      gasPrice := Long_fromString t.gasPrice.value
      gasLimit := Long_fromString t.gasLimit.value
      payer := t.payer.toBase58
      payload := convertPayload t.payload
      txAttributes := t.txAttributes.map convertAttribute }
  match tx with
  | .base _ => transaction
  | .transfer _ tr =>
      { transaction with
        transferInfo := some
          { amount := Long_fromValue tr.amount
            asset := if tr.tokenType = "ONT" then 1 else 2
            fromAddress := tr.fromAddr.toBase58
            toAddress := tr.toAddr.toBase58 } }

/-- `BIP44` of `trezorProxy`: the fixed 5-level derivation path for a given
address index (the source comments label the levels purpose, coin type NEO,
account, change, account index). -/
def BIP44 (index : Nat) : List Nat :=
  [0x8000002C, 0x80000378, 0x80000000, 0x00000000, index]

/-- A hardened path level as BIP44 defines it: the raw value plus the
hardening bit 0x80000000. -/
def hardened (n : Nat) : Nat := 0x80000000 + n

/-- The SLIP-44 coin type registered for this chain.  Modelled from the spec:
the glossary defines the SLIP-44 coin type as "a registered constant
identifying a blockchain's own cryptocurrency"; the SLIP-0044 registry assigns
1024 (ONT, Ontology) to this chain — the value itself appears nowhere in the
repository.  (The registry assigns 888 to NEO, the coin named by the source
comment on the constant actually used.) -/
def registeredSlip44CoinType : Nat := 1024

/-- A typed RPC call record as handed to `session.typedCall`: the request and
response type names and the request payload fields used by this adapter
(`address_n`, and either `show_display` or `transaction`). -/
structure TypedCall where
  reqName : String
  respName : String
  address_n : List Nat
  show_display : Option Bool := none
  transaction : Option OntologyTransaction := none
deriving DecidableEq, Repr

/-- `getPublicKey` of `trezorProxy`, with the device I/O made explicit: the
function issues one `OntologyGetPublicKey` typed call with the BIP44 path of
the index and display suppressed, and returns the `public_key` field of the
device's reply (`devicePk` stands for that reply). -/
def getPublicKey (index : Nat) (devicePk : String) : TypedCall × String :=
  (⟨"OntologyGetPublicKey", "OntologyPublicKey", BIP44 index, some false, none⟩,
   devicePk)

/-- A signable value, as the signing entry points see it.  A value passing the
`isTransaction` shape check is treated as a transaction by the code (it is
cast and its transaction fields are read), so such values are represented by
the `tx` constructor; `obj` represents every other object, carrying the three
fields the shape check inspects together with the fact that at least one of
them is nullish. -/
inductive Signable where
  | tx (t : SourceTx)
  | obj (version : Option Nat) (ty : Option Nat) (payload : Option Payload)
        (hmissing : version = none ∨ ty = none ∨ payload = none)

/-- `isTransaction` of `trezorProxy`: the duck-typed shape check
`o.version != null && o.type != null && o.payload != null`. -/
def isTransaction : Signable → Bool
  | .tx _ => true
  | .obj v ty p _ => v.isSome && ty.isSome && p.isSome

/-- The transaction behind a signable that passed the shape check (the
source's `signable as any` cast). -/
def Signable.getTx : (s : Signable) → isTransaction s = true → SourceTx
  | .tx t, _ => t
  | .obj v ty p hm, h =>
      absurd h (by rcases hm with h1 | h1 | h1 <;> simp [isTransaction, h1])

/-- `computesSignature` of `trezorProxy`, with the device I/O made explicit:
on a transaction-shaped signable it issues one `OntologySignTx` typed call
carrying the BIP44 path and the translated transaction and returns that call
record together with the `signature` field of the device's reply (`deviceSig`
stands for that reply); on any other signable it fails before issuing any
call. -/
def computesSignature (index : Nat) (signable : Signable) (deviceSig : String) :
    Except String (TypedCall × String) :=
  if h : isTransaction signable = true then
    .ok (⟨"OntologySignTx", "OntologySignedTx", BIP44 index, none,
          some (convertToTrezorTransaction (signable.getTx h))⟩,
         deviceSig)
  else
    .error "Unsupported Signable implementation. Only Transaction is supported."

/-! ### Device wait

Time is modelled in milliseconds.  `conn t` says whether the shared
connection-state value `gDevice` (set by the connect event, cleared by the
disconnect event) is non-null at time `t`.  `getDevice` polls it from time 0
in fixed `sleep(5000)` increments; `fuel` bounds the number of polls observed
(the source loop is unbounded), and is universally quantified in every
theorem.  `promise-timeout` resolves the wait only if it finishes within
5000 ms and otherwise rejects with a timeout error. -/

/-- The polling loop of `getDevice`: starting at time `t`, return the first
poll instant at which the connection state is set, advancing in 5000 ms sleep
steps, observing at most `fuel` polls. -/
def pollDevice (conn : Nat → Bool) : Nat → Nat → Option Nat
  | 0, _ => none
  | fuel + 1, t => if conn t then some t else pollDevice conn fuel (t + 5000)

/-- `getDevice` of `trezorProxy`: poll the shared connection state from
time 0. -/
def getDevice (conn : Nat → Bool) (fuel : Nat) : Option Nat :=
  pollDevice conn fuel 0

/-- `getDeviceWithTimout` of `trezorProxy` (name as in the source):
`timeout(getDevice(), 5000)` — the wait succeeds only if `getDevice` resolves
by 5000 ms, and otherwise fails with the timeout error. -/
def getDeviceWithTimout (conn : Nat → Bool) (fuel : Nat) : Except String Nat :=
  match getDevice conn fuel with
  | some t => if t ≤ 5000 then .ok t else .error "TimeoutError"
  | none => .error "TimeoutError"

/-- `isTrezorSupported` of `trezorProxy`: try the device wait; report `true`
on success and swallow any failure into `false`. -/
def isTrezorSupported (conn : Nat → Bool) (fuel : Nat) : Bool :=
  match getDeviceWithTimout conn fuel with
  | .ok _ => true
  | .error _ => false

/-! ### The hardware key adapter (`trezorKey`) -/

/-- The SDK's signature schemes (the adapter only distinguishes
`ECDSAwithSHA256` from everything else). -/
inductive SignatureScheme where
  | ECDSAwithSHA224
  | ECDSAwithSHA256
  | ECDSAwithSHA384
  | ECDSAwithSHA512
  | SM2withSM3
  | EDDSAwithSHA512
deriving DecidableEq, Repr

/-- The SDK's signature object, as `new Signature(schema, value, publicKeyId)`
builds it. -/
structure Signature where
  algorithm : SignatureScheme
  value : String
  publicKeyId : Option String
deriving DecidableEq, Repr

/-- The state of a `TrezorKey` adapter instance: the derivation index and the
cached compressed public key set by `createExisting`. -/
structure TrezorKey where
  index : Nat
  publicKey : String
deriving DecidableEq, Repr

/-- The message argument of the signing entry points: a plain string or a
structured signable. -/
inductive SignMsg where
  | str (s : String)
  | signable (s : Signable)

/-- `sign` of the Trezor key adapter: synchronous signing always fails. -/
def sign (_k : TrezorKey) (_msg : SignMsg) (_schema : Option SignatureScheme)
    (_publicKeyId : Option String) : Except String Signature :=
  .error "Synchronious signing is not supported with Trezor."

/-- `isSchemaSupported` of the Trezor key adapter: only `ECDSAwithSHA256`. -/
def isSchemaSupported (_k : TrezorKey) (schema : SignatureScheme) : Bool :=
  schema = SignatureScheme.ECDSAwithSHA256

/-- `signAsync` of the Trezor key adapter, with the device I/O made explicit
(`deviceSig` stands for the signature string the device returns through
`computesSignature`): default the scheme to `ECDSAwithSHA256`, reject
unsupported schemes, reject plain-string messages, then delegate to
`computesSignature` and wrap the returned string, its first two characters
stripped (`substr(2)`), in a signature object tagged with the scheme. -/
def signAsync (k : TrezorKey) (msg : SignMsg) (schema0 : Option SignatureScheme)
    (publicKeyId : Option String) (deviceSig : String) :
    Except String Signature :=
  let schema := match schema0 with
    | none => SignatureScheme.ECDSAwithSHA256
    | some s => s
  if ¬ isSchemaSupported k schema then
    .error "Signature schema does not match key type."
  else
    match msg with
    | .str _ => .error "Signing only message is not supported. Use Signable object instead."
    | .signable s =>
        match computesSignature k.index s deviceSig with
        | .error e => .error e
        | .ok (_, signed) => .ok ⟨schema, signed.drop 2, publicKeyId⟩

/-- `decrypt` of the Trezor key adapter: a no-op returning the adapter
itself. -/
def decrypt (k : TrezorKey) (_keyphrase : String) (_address : Address)
    (_salt : String) (_params : Option Unit) : TrezorKey := k

/-- `encrypt` of the Trezor key adapter: a no-op returning the adapter
itself. -/
def encrypt (k : TrezorKey) (_keyphrase : String) (_address : Address)
    (_salt : String) (_params : Option Unit) : TrezorKey := k

/-! ## Shared lemmas -/

/-- A successful poll reports an instant at which the connection state was
set, reached from the start instant by whole 5000 ms sleep steps. -/
theorem pollDevice_some (conn : Nat → Bool) (fuel : Nat) :
    ∀ t0 t : Nat, pollDevice conn fuel t0 = some t →
      conn t = true ∧ ∃ k, t = t0 + 5000 * k := by
  induction fuel with
  | zero => intro t0 t h; simp [pollDevice] at h
  | succ fuel ih =>
    intro t0 t h
    by_cases hc : conn t0
    · simp [pollDevice, hc] at h
      exact h ▸ ⟨hc, 0, by omega⟩
    · simp only [pollDevice, hc, Bool.false_eq_true, if_false] at h
      obtain ⟨hct, k, hk⟩ := ih (t0 + 5000) t h
      exact ⟨hct, k + 1, by omega⟩

/-- A successful device wait reports an instant at which the connection state
was set, lying within the 5000 ms timeout window, at a whole multiple of the
5000 ms polling interval. -/
theorem getDeviceWithTimout_ok_inv (conn : Nat → Bool) (fuel t : Nat)
    (h : getDeviceWithTimout conn fuel = .ok t) :
    conn t = true ∧ t ≤ 5000 ∧ ∃ k, t = 5000 * k := by
  unfold getDeviceWithTimout at h
  cases hg : getDevice conn fuel with
  | none => rw [hg] at h; exact absurd h (by simp)
  | some t1 =>
    rw [hg] at h
    by_cases hle : t1 ≤ 5000
    · simp only [hle, if_true, Except.ok.injEq] at h
      obtain ⟨hc, k, hk⟩ := pollDevice_some conn fuel 0 t1 hg
      subst h
      exact ⟨hc, hle, k, by omega⟩
    · simp [hle] at h

/-- If the connection state is never set within the 5000 ms window, the
device wait fails with the timeout error. -/
theorem getDeviceWithTimout_timeout (conn : Nat → Bool) (fuel : Nat)
    (h : ∀ t, t ≤ 5000 → conn t = false) :
    getDeviceWithTimout conn fuel = .error "TimeoutError" := by
  cases hr : getDeviceWithTimout conn fuel with
  | error e =>
    unfold getDeviceWithTimout at hr
    cases hg : getDevice conn fuel with
    | none => rw [hg] at hr; exact hr.symm ▸ rfl
    | some t1 =>
      rw [hg] at hr
      by_cases hle : t1 ≤ 5000
      · simp [hle] at hr
      · simp only [hle, if_false] at hr
        exact hr ▸ rfl
  | ok t =>
    obtain ⟨hc, hle, _⟩ := getDeviceWithTimout_ok_inv conn fuel t hr
    rw [h t hle] at hc
    exact absurd hc (by simp)

/-- Anatomy of `computesSignature` on a transaction-shaped signable: one
`OntologySignTx` call with the BIP44 path and the translated transaction, and
the device's reply passed through. -/
theorem computesSignature_tx (index : Nat) (t : SourceTx) (deviceSig : String) :
    computesSignature index (Signable.tx t) deviceSig =
      .ok (⟨"OntologySignTx", "OntologySignedTx", BIP44 index, none,
            some (convertToTrezorTransaction t)⟩, deviceSig) := rfl

/-- The signature string an ok `computesSignature` hands back is exactly the
device's reply. -/
theorem computesSignature_ok_inv (index : Nat) (sg : Signable)
    (deviceSig : String) (c : TypedCall) (signed : String)
    (h : computesSignature index sg deviceSig = .ok (c, signed)) :
    signed = deviceSig := by
  unfold computesSignature at h
  split at h
  · simp only [Except.ok.injEq, Prod.mk.injEq] at h
    exact h.2.symm
  · exact absurd h (by simp)

/-! ## Claims -/

/-- C1. For every payload object passed to the transaction translator, if the
payload carries a "name" field the translated payload has type tag 2
(deploy-code) and copies through code, needStorage, name, version, author,
email, and description verbatim; otherwise the translated payload has type
tag 1 (invoke-code) and contains only the code field (every other field of
the wire record is absent). -/
theorem convertPayload_discriminates (p : Payload) :
    (p.name.isSome = true →
        convertPayload p =
          ⟨2, p.code, p.needStorage, p.name, p.version, p.author, p.email,
           p.description⟩)
  ∧ (p.name = none →
        convertPayload p = ⟨1, p.code, none, none, none, none, none, none⟩) := by
  constructor
  · intro h; simp [convertPayload, h]
  · intro h; simp [convertPayload, h]

/-- Witness for C1: a deploy payload (name present) and an invoke payload
(name absent), translated concretely. -/
theorem convertPayload_discriminates_witness :
    convertPayload ⟨"60c56b", some true, some "n", some "v", some "a",
                    some "e", some "d"⟩ =
      ⟨2, "60c56b", some true, some "n", some "v", some "a", some "e",
       some "d"⟩
  ∧ convertPayload ⟨"60c56b", none, none, none, none, none, none⟩ =
      ⟨1, "60c56b", none, none, none, none, none, none⟩ :=
  ⟨(convertPayload_discriminates
      ⟨"60c56b", some true, some "n", some "v", some "a", some "e",
       some "d"⟩).1 rfl,
   (convertPayload_discriminates
      ⟨"60c56b", none, none, none, none, none, none⟩).2 rfl⟩

/-- C2. A native-asset transfer is translated with a transfer sub-record
carrying the amount as a 64-bit integer, asset code 1 exactly when the token
symbol is "ONT" and 2 for any other symbol, and the from/to addresses
rendered as base58 strings; a non-transfer transaction is translated with no
transfer sub-record. -/
theorem transfer_enrichment (t : TxBase) (tr : TransferData) :
    (convertToTrezorTransaction (.transfer t tr)).transferInfo =
      some ⟨Long_fromValue tr.amount,
            if tr.tokenType = "ONT" then 1 else 2,
            tr.fromAddr.toBase58, tr.toAddr.toBase58⟩
  ∧ (tr.tokenType = "ONT" →
      (convertToTrezorTransaction (.transfer t tr)).transferInfo =
        some ⟨Long_fromValue tr.amount, 1, tr.fromAddr.toBase58,
              tr.toAddr.toBase58⟩)
  ∧ (tr.tokenType ≠ "ONT" →
      (convertToTrezorTransaction (.transfer t tr)).transferInfo =
        some ⟨Long_fromValue tr.amount, 2, tr.fromAddr.toBase58,
              tr.toAddr.toBase58⟩)
  ∧ Long_fromValue tr.amount < 2 ^ 64
  ∧ (convertToTrezorTransaction (.base t)).transferInfo = none := by
  refine ⟨rfl, ?_, ?_, ?_, rfl⟩
  · intro h; simp [convertToTrezorTransaction, h]
  · intro h; simp [convertToTrezorTransaction, h]
  · exact Nat.mod_lt _ (by norm_num)

/-- Witness for C2: a concrete "ONT" transfer gets asset code 1, a concrete
"ONG" transfer gets asset code 2. -/
theorem transfer_enrichment_witness :
    (convertToTrezorTransaction
        (.transfer ⟨0, 0xD1, [1, 0, 0, 0], ⟨"500"⟩, ⟨"30000"⟩, ⟨"AGn8"⟩,
                    ⟨"00c6", none, none, none, none, none, none⟩, []⟩
                   ⟨100, "ONT", ⟨"AGn8"⟩, ⟨"AcyL"⟩⟩)).transferInfo =
      some ⟨Long_fromValue 100, 1, "AGn8", "AcyL"⟩
  ∧ (convertToTrezorTransaction
        (.transfer ⟨0, 0xD1, [1, 0, 0, 0], ⟨"500"⟩, ⟨"30000"⟩, ⟨"AGn8"⟩,
                    ⟨"00c6", none, none, none, none, none, none⟩, []⟩
                   ⟨100, "ONG", ⟨"AGn8"⟩, ⟨"AcyL"⟩⟩)).transferInfo =
      some ⟨Long_fromValue 100, 2, "AGn8", "AcyL"⟩ :=
  ⟨(transfer_enrichment _ _).2.1 rfl,
   (transfer_enrichment _ _).2.2.1 (by decide)⟩

/-- C3, counterexample.  The path the code sends is not the one with this
chain's registered SLIP-44 coin type (1024, hardened) at the coin-type level:
the second level of the constructed path is 888 hardened (0x80000378), the
constant the source comment itself labels "coin type NEO". -/
theorem BIP44_coinType_not_registered :
    BIP44 0 ≠ [hardened 44, hardened registeredSlip44CoinType, hardened 0, 0, 0]
  ∧ (BIP44 0).get? 1 = some (hardened 888)
  ∧ hardened 888 ≠ hardened registeredSlip44CoinType := by
  refine ⟨by decide, by decide, by decide⟩

/-- C3, amended.  For every signing and public-key request with
caller-supplied index, the derivation path sent to the device is exactly the
fixed 5-level BIP44 path: hardened purpose 44, hardened coin type 888 (the
NEO SLIP-44 coin type, per the source comment — not this chain's registered
type 1024), hardened account 0, non-hardened change 0, non-hardened address
index. -/
theorem BIP44_path_spec (index : Nat) :
    BIP44 index = [hardened 44, hardened 888, hardened 0, 0, index]
  ∧ (∀ devicePk, (getPublicKey index devicePk).1.address_n = BIP44 index)
  ∧ (∀ (t : SourceTx) (deviceSig : String),
      computesSignature index (Signable.tx t) deviceSig =
        .ok (⟨"OntologySignTx", "OntologySignedTx", BIP44 index, none,
              some (convertToTrezorTransaction t)⟩, deviceSig)) :=
  ⟨rfl, fun _ => rfl, fun t deviceSig => computesSignature_tx index t deviceSig⟩

/-- C4. For every translated transaction, the nonce equals the little-endian
decode of the source's 4 nonce bytes into an unsigned 32-bit integer, and the
gas price and gas limit equal the source decimal-string amounts parsed
exactly — without loss of precision — whenever their values fit in 64 bits
(which includes every value beyond the 53-bit safe-integer range up to
2^64). -/
theorem translator_numeric_fields (tx : SourceTx) (b0 b1 b2 b3 : Nat)
    (hn : tx.fields.nonce = [b0, b1, b2, b3])
    (hp : decValue tx.fields.gasPrice.value < 2 ^ 64)
    (hl : decValue tx.fields.gasLimit.value < 2 ^ 64) :
    (convertToTrezorTransaction tx).nonce =
      b0 + 2 ^ 8 * b1 + 2 ^ 16 * b2 + 2 ^ 24 * b3
  ∧ (b0 < 256 → b1 < 256 → b2 < 256 → b3 < 256 →
      (convertToTrezorTransaction tx).nonce < 2 ^ 32)
  ∧ (convertToTrezorTransaction tx).gasPrice = decValue tx.fields.gasPrice.value
  ∧ (convertToTrezorTransaction tx).gasLimit = decValue tx.fields.gasLimit.value := by
  have hfields :
      (convertToTrezorTransaction tx).nonce = StringReader_readUint32 tx.fields.nonce
    ∧ (convertToTrezorTransaction tx).gasPrice = Long_fromString tx.fields.gasPrice.value
    ∧ (convertToTrezorTransaction tx).gasLimit = Long_fromString tx.fields.gasLimit.value := by
    cases tx <;> exact ⟨rfl, rfl, rfl⟩
  obtain ⟨h1, h2, h3⟩ := hfields
  have hdec : StringReader_readUint32 tx.fields.nonce =
      b0 + 2 ^ 8 * b1 + 2 ^ 16 * b2 + 2 ^ 24 * b3 := by
    rw [hn]; simp [StringReader_readUint32, List.take, List.foldl]; ring
  refine ⟨h1.trans hdec, ?_, ?_, ?_⟩
  · intro hb0 hb1 hb2 hb3
    rw [h1, hdec]; omega
  · rw [h2]; exact Nat.mod_eq_of_lt hp
  · rw [h3]; exact Nat.mod_eq_of_lt hl

/-- Witness for C4: nonce bytes 0x78 0x56 0x34 0x12 decode to 0x12345678, a
gas price of 2^53 + 1 (beyond the 53-bit safe-integer range) and a gas limit
of 2^64 - 1 are parsed exactly. -/
theorem translator_numeric_fields_witness :
    (convertToTrezorTransaction
        (.base ⟨0, 0xD1, [0x78, 0x56, 0x34, 0x12], ⟨"9007199254740993"⟩,
                ⟨"18446744073709551615"⟩, ⟨"AGn8"⟩,
                ⟨"00c6", none, none, none, none, none, none⟩, []⟩)).nonce =
      0x78 + 2 ^ 8 * 0x56 + 2 ^ 16 * 0x34 + 2 ^ 24 * 0x12
  ∧ (convertToTrezorTransaction
        (.base ⟨0, 0xD1, [0x78, 0x56, 0x34, 0x12], ⟨"9007199254740993"⟩,
                ⟨"18446744073709551615"⟩, ⟨"AGn8"⟩,
                ⟨"00c6", none, none, none, none, none, none⟩, []⟩)).nonce < 2 ^ 32
  ∧ (convertToTrezorTransaction
        (.base ⟨0, 0xD1, [0x78, 0x56, 0x34, 0x12], ⟨"9007199254740993"⟩,
                ⟨"18446744073709551615"⟩, ⟨"AGn8"⟩,
                ⟨"00c6", none, none, none, none, none, none⟩, []⟩)).gasPrice =
      decValue "9007199254740993"
  ∧ (convertToTrezorTransaction
        (.base ⟨0, 0xD1, [0x78, 0x56, 0x34, 0x12], ⟨"9007199254740993"⟩,
                ⟨"18446744073709551615"⟩, ⟨"AGn8"⟩,
                ⟨"00c6", none, none, none, none, none, none⟩, []⟩)).gasLimit =
      decValue "18446744073709551615" := by
  have h := translator_numeric_fields
    (.base ⟨0, 0xD1, [0x78, 0x56, 0x34, 0x12], ⟨"9007199254740993"⟩,
            ⟨"18446744073709551615"⟩, ⟨"AGn8"⟩,
            ⟨"00c6", none, none, none, none, none, none⟩, []⟩)
    0x78 0x56 0x34 0x12 rfl (by decide) (by decide)
  exact ⟨h.1, h.2.1 (by decide) (by decide) (by decide) (by decide),
         h.2.2.1, h.2.2.2⟩

/-- C5. For every successful `signAsync` call: the scheme defaults to
`ECDSAwithSHA256` when none is supplied; the returned signature is tagged
with the (defaulted) scheme, its value is the device-returned hex string with
its 2-character prefix stripped, and it carries the supplied public-key
id. -/
theorem signAsync_success_spec (k : TrezorKey) (msg : SignMsg)
    (schema0 : Option SignatureScheme) (pkid : Option String)
    (deviceSig : String) (sig : Signature)
    (h : signAsync k msg schema0 pkid deviceSig = .ok sig) :
    sig.algorithm = schema0.getD SignatureScheme.ECDSAwithSHA256
  ∧ sig.value = deviceSig.drop 2
  ∧ sig.publicKeyId = pkid := by
  cases schema0 with
  | none =>
    simp only [signAsync, isSchemaSupported] at h
    rw [if_neg (by simp)] at h
    cases msg with
    | str s0 => exact absurd h (by simp)
    | signable sg =>
      dsimp only at h
      rcases hcs : computesSignature k.index sg deviceSig with e | ⟨c, signed⟩ <;>
        rw [hcs] at h
      · exact absurd h (by simp)
      · have hsd := computesSignature_ok_inv k.index sg deviceSig c signed hcs
        subst hsd
        simp only [Except.ok.injEq] at h
        subst h
        exact ⟨rfl, rfl, rfl⟩
  | some s =>
    by_cases hs : s = SignatureScheme.ECDSAwithSHA256
    · subst hs
      simp only [signAsync, isSchemaSupported] at h
      rw [if_neg (by simp)] at h
      cases msg with
      | str s0 => exact absurd h (by simp)
      | signable sg =>
        dsimp only at h
        rcases hcs : computesSignature k.index sg deviceSig with e | ⟨c, signed⟩ <;>
          rw [hcs] at h
        · exact absurd h (by simp)
        · have hsd := computesSignature_ok_inv k.index sg deviceSig c signed hcs
          subst hsd
          simp only [Except.ok.injEq] at h
          subst h
          exact ⟨rfl, rfl, rfl⟩
    · simp only [signAsync, isSchemaSupported] at h
      rw [if_pos (by simp [hs])] at h
      exact absurd h (by simp)

/-- Witness for C5: a concrete scheme-less `signAsync` on a transaction with
device reply "01f00d" produces the `ECDSAwithSHA256`-tagged signature
"f00d". -/
theorem signAsync_success_spec_witness :
    (⟨SignatureScheme.ECDSAwithSHA256, "f00d", none⟩ : Signature).algorithm =
      (none : Option SignatureScheme).getD SignatureScheme.ECDSAwithSHA256
  ∧ (⟨SignatureScheme.ECDSAwithSHA256, "f00d", none⟩ : Signature).value =
      "01f00d".drop 2
  ∧ (⟨SignatureScheme.ECDSAwithSHA256, "f00d", none⟩ : Signature).publicKeyId =
      (none : Option String) :=
  signAsync_success_spec ⟨0, "pk"⟩
    (.signable (.tx (.base ⟨0, 0xD1, [1, 0, 0, 0], ⟨"500"⟩, ⟨"30000"⟩, ⟨"AGn8"⟩,
                           ⟨"00c6", none, none, none, none, none, none⟩, []⟩)))
    none none "01f00d" ⟨.ECDSAwithSHA256, "f00d", none⟩ rfl

/-- C6. The unsupported operations fail immediately with an error:
synchronous `sign` fails for every input; `isSchemaSupported` is true only
for `ECDSAwithSHA256`; `signAsync` with any other scheme fails with the
scheme error; `signAsync` on a plain string fails (with the string error, or
with the scheme error when the scheme was already unsupported). -/
theorem unsupported_operations_fail (k : TrezorKey) (msg : SignMsg)
    (schema0 : Option SignatureScheme) (sch : SignatureScheme)
    (pkid : Option String) (deviceSig : String) (s0 : String) :
    sign k msg schema0 pkid =
      .error "Synchronious signing is not supported with Trezor."
  ∧ (isSchemaSupported k sch = true ↔ sch = SignatureScheme.ECDSAwithSHA256)
  ∧ (sch ≠ SignatureScheme.ECDSAwithSHA256 →
      signAsync k msg (some sch) pkid deviceSig =
        .error "Signature schema does not match key type.")
  ∧ (signAsync k (.str s0) schema0 pkid deviceSig =
        .error "Signing only message is not supported. Use Signable object instead."
     ∨ signAsync k (.str s0) schema0 pkid deviceSig =
        .error "Signature schema does not match key type.") := by
  refine ⟨rfl, by simp [isSchemaSupported], ?_, ?_⟩
  · intro h
    simp only [signAsync, isSchemaSupported]
    rw [if_pos (by simp [h])]
  · cases schema0 with
    | none =>
      left
      simp only [signAsync, isSchemaSupported]
      rw [if_neg (by simp)]
    | some s =>
      by_cases hs : s = SignatureScheme.ECDSAwithSHA256
      · left
        subst hs
        simp only [signAsync, isSchemaSupported]
        rw [if_neg (by simp)]
      · right
        simp only [signAsync, isSchemaSupported]
        rw [if_pos (by simp [hs])]

/-- Witness for C6: the concrete failures at index 0 — synchronous sign, an
SM2 scheme request, and a plain-string message. -/
theorem unsupported_operations_fail_witness :
    sign ⟨0, "pk"⟩ (.str "deadbeef") none none =
      .error "Synchronious signing is not supported with Trezor."
  ∧ signAsync ⟨0, "pk"⟩ (.str "deadbeef") (some SignatureScheme.SM2withSM3)
        none "01f00d" =
      .error "Signature schema does not match key type."
  ∧ (signAsync ⟨0, "pk"⟩ (.str "deadbeef") none none "01f00d" =
        .error "Signing only message is not supported. Use Signable object instead."
     ∨ signAsync ⟨0, "pk"⟩ (.str "deadbeef") none none "01f00d" =
        .error "Signature schema does not match key type.") :=
  ⟨(unsupported_operations_fail ⟨0, "pk"⟩ (.str "deadbeef") none
      SignatureScheme.SM2withSM3 none "01f00d" "deadbeef").1,
   (unsupported_operations_fail ⟨0, "pk"⟩ (.str "deadbeef") none
      SignatureScheme.SM2withSM3 none "01f00d" "deadbeef").2.2.1 (by decide),
   (unsupported_operations_fail ⟨0, "pk"⟩ (.str "deadbeef") none
      SignatureScheme.SM2withSM3 none "01f00d" "deadbeef").2.2.2⟩

/-- C7, counterexample.  The rejection of a non-transaction signable does not
carry the error text the claim quotes: the code's message is "Unsupported
Signable implementation. Only Transaction is supported." -/
theorem computesSignature_error_message :
    computesSignature 0 (Signable.obj none none none (Or.inl rfl)) "00f00d" =
      .error "Unsupported Signable implementation. Only Transaction is supported."
  ∧ "Unsupported Signable implementation. Only Transaction is supported." ≠
      "unsupported signable; only transaction objects are supported" :=
  ⟨rfl, by decide⟩

/-- C7, amended.  Every signable failing the transaction shape check (has
version, type, and payload fields) is rejected with the error "Unsupported
Signable implementation. Only Transaction is supported.", and no typed
signing call is issued to the device for it (the error result carries no call
record). -/
theorem computesSignature_rejects_nonTransaction (index : Nat) (s : Signable)
    (deviceSig : String) (h : isTransaction s = false) :
    computesSignature index s deviceSig =
      .error "Unsupported Signable implementation. Only Transaction is supported." := by
  unfold computesSignature
  rw [dif_neg (by simp [h])]

/-- Witness for C7: a signable carrying version and type but no payload is
rejected concretely. -/
theorem computesSignature_rejects_nonTransaction_witness :
    computesSignature 1
        (Signable.obj (some 0) (some 0xD1) none (Or.inr (Or.inr rfl))) "ff" =
      .error "Unsupported Signable implementation. Only Transaction is supported." :=
  computesSignature_rejects_nonTransaction 1
    (Signable.obj (some 0) (some 0xD1) none (Or.inr (Or.inr rfl))) "ff" rfl

/-- C8. The device wait polls the shared connection state in fixed 5000 ms
sleep increments bounded by an outer 5000 ms timeout: if the connection state
is not set at any instant of the timeout window — in particular when no
device is connected, or when one connects only after the window — the wait
fails with the timeout error instead of blocking; and any successful wait
observed the state set at a whole multiple of the 5000 ms polling interval
within the window. -/
theorem deviceWait_policy (conn : Nat → Bool) (fuel : Nat) :
    ((∀ t, t ≤ 5000 → conn t = false) →
        getDeviceWithTimout conn fuel = .error "TimeoutError")
  ∧ (∀ t, getDeviceWithTimout conn fuel = .ok t →
        conn t = true ∧ t ≤ 5000 ∧ ∃ k, t = 5000 * k) :=
  ⟨fun h => getDeviceWithTimout_timeout conn fuel h,
   fun t h => getDeviceWithTimout_ok_inv conn fuel t h⟩

/-- Witness for C8: with no device ever connected the wait times out
concretely; with a device connected from the start the wait succeeds at
instant 0, a poll instant inside the window. -/
theorem deviceWait_policy_witness :
    getDeviceWithTimout (fun _ => false) 3 = .error "TimeoutError"
  ∧ ((fun _ => true : Nat → Bool) 0 = true ∧ 0 ≤ 5000 ∧ ∃ k, 0 = 5000 * k) :=
  ⟨(deviceWait_policy (fun _ => false) 3).1 (fun _ _ => rfl),
   (deviceWait_policy (fun _ => true) 3).2 0 rfl⟩

/-- C9. `encrypt` and `decrypt` are identity no-ops for every adapter
instance and every argument combination: each returns the same adapter, with
the index and the cached public key unchanged. -/
theorem encrypt_decrypt_noop (k : TrezorKey) (keyphrase : String)
    (address : Address) (salt : String) (params : Option Unit) :
    encrypt k keyphrase address salt params = k
  ∧ decrypt k keyphrase address salt params = k
  ∧ (encrypt k keyphrase address salt params).index = k.index
  ∧ (encrypt k keyphrase address salt params).publicKey = k.publicKey
  ∧ (decrypt k keyphrase address salt params).index = k.index
  ∧ (decrypt k keyphrase address salt params).publicKey = k.publicKey :=
  ⟨rfl, rfl, rfl, rfl, rfl, rfl⟩

/-- C10. The device-support probe is a total boolean function — it never
fails: it reports `true` exactly when the device wait succeeds, and reports
`false` — swallowing the underlying error — whenever the wait fails, in
particular on timeout when no device is connected within the window. -/
theorem isTrezorSupported_spec (conn : Nat → Bool) (fuel : Nat) :
    (isTrezorSupported conn fuel = true ↔
      ∃ t, getDeviceWithTimout conn fuel = .ok t)
  ∧ ((∀ t, t ≤ 5000 → conn t = false) → isTrezorSupported conn fuel = false) := by
  constructor
  · rcases hr : getDeviceWithTimout conn fuel with e | t
    · simp [isTrezorSupported, hr]
    · simp [isTrezorSupported, hr]
  · intro h
    unfold isTrezorSupported
    rw [getDeviceWithTimout_timeout conn fuel h]

/-- Witness for C10: the probe reports `true` with a device connected from
the start, and `false` with no device ever connected. -/
theorem isTrezorSupported_spec_witness :
    isTrezorSupported (fun _ => true) 1 = true
  ∧ isTrezorSupported (fun _ => false) 1 = false :=
  ⟨(isTrezorSupported_spec (fun _ => true) 1).1.mpr ⟨0, rfl⟩,
   (isTrezorSupported_spec (fun _ => false) 1).2 (fun _ _ => rfl)⟩

end Trezor
